import Mathlib

/-!
Shallow embedding of the crop-insurance core: the `PolicyManager` contract
(seasonal policies, subscription admission) and the manager-gated `Treasury`
vault. Solidity `require`/revert semantics are modelled by operations of type
`State → Except Err State`: an `.error` outcome corresponds to a reverted
transaction, which by EVM semantics restores the pre-call state (made explicit
by `applyTx`). `msg.sender`, `msg.value` and `block.timestamp` are passed as
explicit arguments. Mappings are total functions with the Solidity zero-value
default.
-/

namespace Hackat

/-- Addresses are modelled as natural numbers; `0` is the zero address. -/
abbrev Address := Nat

/-- The status enum of a policy, as declared in PolicyManager. -/
inductive PolicyStatus where
  | Active
  | Paused
  | PayoutTriggered
deriving DecidableEq, Repr

/-- Error taxonomy of the spec, with one extra constructor for the
`Treasury: zero address` require that the spec's taxonomy does not name. -/
inductive Err where
  | AuthorizationError
  | NotFoundError
  | StateError
  | DeadlineError
  | PaymentError
  | DuplicateSubscriptionError
  | InsufficientFundsError
  | TransferError
  | ZeroAddressError
deriving DecidableEq, Repr

/-- The Policy struct of PolicyManager, including the per-policy
`lastSubscribedSeason` mapping. -/
structure Policy where
  id : Nat
  name : String
  triggerThreshold : Nat
  premium : Nat
  season : Nat
  seasonStart : Nat
  seasonEnd : Nat
  subscriptionDeadline : Nat
  coversFullSeason : Bool
  status : PolicyStatus
  currentSubscribers : List Address
  lastSubscribedSeason : Address → Nat

/-- The Solidity zero value of the Policy struct: numbers 0, empty string,
empty array, zero mappings, and the first enum member `Active`. -/
def Policy.zero : Policy :=
  { id := 0
    name := ""
    triggerThreshold := 0
    premium := 0
    season := 0
    seasonStart := 0
    seasonEnd := 0
    subscriptionDeadline := 0
    coversFullSeason := false
    status := .Active
    currentSubscribers := []
    lastSubscribedSeason := fun _ => 0 }

/-- Storage of the PolicyManager contract. -/
structure PolicyManager where
  owner : Address
  treasury : Address
  payoutEngine : Address
  nextPolicyId : Nat
  policies : Nat → Policy
  farmerPolicies : Address → List Nat
  farmerSeasonFullCover : Address → Nat → Bool

/-- Storage of the Treasury contract (the manager-gated vault variant);
`balance` is the ETH actually held by the contract. -/
structure Treasury where
  owner : Address
  authorizedManagers : Address → Bool
  farmerBalances : Address → Nat
  totalCollected : Nat
  balance : Nat

/-- The two contracts together with the PolicyManager's own address
(the `msg.sender` the vault sees when subscribe forwards the premium). -/
structure SystemState where
  pmAddr : Address
  pm : PolicyManager
  vault : Treasury

/-- Pointwise update of a mapping. -/
def mapSet {β : Type} (f : Nat → β) (k : Nat) (v : β) : Nat → β :=
  fun i => if i = k then v else f i

/-- Pointwise update of a two-key mapping. -/
def mapSet2 {β : Type} (f : Nat → Nat → β) (a k : Nat) (v : β) : Nat → Nat → β :=
  fun x y => if x = a ∧ y = k then v else f x y

/-- EVM transaction semantics: a reverted call leaves the pre-state. -/
def applyTx {α : Type} (σ : α) (r : Except Err α) : α :=
  match r with
  | .ok σ' => σ'
  | .error _ => σ

/-- The `validPolicy` modifier: `_id > 0 && _id < nextPolicyId`. -/
def PolicyManager.validPolicy (s : PolicyManager) (id : Nat) : Prop :=
  0 < id ∧ id < s.nextPolicyId

instance (s : PolicyManager) (id : Nat) : Decidable (s.validPolicy id) :=
  inferInstanceAs (Decidable (0 < id ∧ id < s.nextPolicyId))

/-- Constructor of PolicyManager: deployer becomes owner, treasury address is
set, `nextPolicyId` starts at 1, all mappings at their zero values. -/
def PolicyManager.init (deployer treasuryAddr : Address) : PolicyManager :=
  { owner := deployer
    treasury := treasuryAddr
    payoutEngine := 0
    nextPolicyId := 1
    policies := fun _ => Policy.zero
    farmerPolicies := fun _ => []
    farmerSeasonFullCover := fun _ _ => false }

/-- `createPolicy`: owner-only; writes the listed fields of the storage slot at
`nextPolicyId` (the slot's `currentSubscribers` array and
`lastSubscribedSeason` mapping are left as they are, as in the source, where a
fresh slot holds the zero value), then increments `nextPolicyId`. -/
def PolicyManager.createPolicy (s : PolicyManager) (caller : Address)
    (name : String) (threshold premium season seasonStart seasonEnd subscriptionDeadline : Nat)
    (coversFullSeason : Bool) : Except Err PolicyManager :=
  if caller ≠ s.owner then .error .AuthorizationError
  else
    let old := s.policies s.nextPolicyId
    let p : Policy :=
      { old with
        id := s.nextPolicyId
        name := name
        triggerThreshold := threshold
        premium := premium
        season := season
        seasonStart := seasonStart
        seasonEnd := seasonEnd
        subscriptionDeadline := subscriptionDeadline
        coversFullSeason := coversFullSeason
        status := .Active }
    .ok { s with
          policies := mapSet s.policies s.nextPolicyId p
          nextPolicyId := s.nextPolicyId + 1 }

/-- `setPayoutEngine`: owner-only. -/
def PolicyManager.setPayoutEngine (s : PolicyManager) (caller engine : Address) :
    Except Err PolicyManager :=
  if caller ≠ s.owner then .error .AuthorizationError
  else .ok { s with payoutEngine := engine }

/-- Treasury `deposit(farmer)`: caller must be an authorized manager, then
`msg.value > 0` is required; on success the farmer balance, the total
collected counter and the held funds each grow by the attached value. -/
def Treasury.deposit (t : Treasury) (caller farmer : Address) (value : Nat) :
    Except Err Treasury :=
  if ¬ t.authorizedManagers caller then .error .AuthorizationError
  else if value = 0 then .error .PaymentError
  else .ok { t with
             farmerBalances := mapSet t.farmerBalances farmer (t.farmerBalances farmer + value)
             totalCollected := t.totalCollected + value
             balance := t.balance + value }

/-- Treasury `setManager`: owner-only, rejects the zero address. -/
def Treasury.setManager (t : Treasury) (caller manager : Address) (enabled : Bool) :
    Except Err Treasury :=
  if caller ≠ t.owner then .error .AuthorizationError
  else if manager = 0 then .error .ZeroAddressError
  else .ok { t with authorizedManagers := mapSet t.authorizedManagers manager enabled }

/-- Treasury `withdraw(to, amount)`: owner-only; requires a nonzero recipient,
then sufficient held funds, then a successful external release (`sendOk`
stands for the outcome of the low-level call to `to`). -/
def Treasury.withdraw (t : Treasury) (caller dst : Address) (amount : Nat)
    (sendOk : Bool) : Except Err Treasury :=
  if caller ≠ t.owner then .error .AuthorizationError
  else if dst = 0 then .error .ZeroAddressError
  else if ¬ amount ≤ t.balance then .error .InsufficientFundsError
  else if ¬ sendOk then .error .TransferError
  else .ok { t with balance := t.balance - amount }

/-- Treasury `withdrawAll(to)`: owner-only; requires a strictly positive
balance (no zero-address check in the source), then releases everything. -/
def Treasury.withdrawAll (t : Treasury) (caller dst : Address) (sendOk : Bool) :
    Except Err Treasury :=
  if caller ≠ t.owner then .error .AuthorizationError
  else if t.balance = 0 then .error .InsufficientFundsError
  else if ¬ sendOk then .error .TransferError
  else .ok { t with balance := t.balance - t.balance }

/-- `subscribe(policyId)` with `msg.value = value` and
`block.timestamp = now`: the `validPolicy` modifier, then the four body
requires, then the full-season exclusivity check (the same flag read in both
branches of the source `if`), then the mutations, and finally the forwarding
call `ITreasury(treasury).deposit{value}(msg.sender)`, whose failure reverts
the whole operation. -/
def subscribe (σ : SystemState) (farmer : Address) (policyId value now : Nat) :
    Except Err SystemState :=
  if ¬ σ.pm.validPolicy policyId then .error .NotFoundError
  else
    let p := σ.pm.policies policyId
    if p.status ≠ .Active then .error .StateError
    else if ¬ now ≤ p.subscriptionDeadline then .error .DeadlineError
    else if value ≠ p.premium then .error .PaymentError
    else if ¬ p.lastSubscribedSeason farmer < p.season then .error .DuplicateSubscriptionError
    else if σ.pm.farmerSeasonFullCover farmer p.season then .error .DuplicateSubscriptionError
    else
      let cover' :=
        if p.coversFullSeason then mapSet2 σ.pm.farmerSeasonFullCover farmer p.season true
        else σ.pm.farmerSeasonFullCover
      let p' := { p with
                  lastSubscribedSeason := mapSet p.lastSubscribedSeason farmer p.season
                  currentSubscribers := p.currentSubscribers ++ [farmer] }
      let pm' := { σ.pm with
                   policies := mapSet σ.pm.policies policyId p'
                   farmerPolicies := mapSet σ.pm.farmerPolicies farmer (σ.pm.farmerPolicies farmer ++ [policyId])
                   farmerSeasonFullCover := cover' }
      match σ.vault.deposit σ.pmAddr farmer value with
      | .error e => .error e
      | .ok t' => .ok { σ with pm := pm', vault := t' }

/-- `markPolicyAsPayout`: the `validPolicy` modifier runs before
`onlyPayoutEngine`; the body requires `status == Active` and then sets
`PayoutTriggered`. -/
def PolicyManager.markPolicyAsPayout (s : PolicyManager) (caller : Address) (id : Nat) :
    Except Err PolicyManager :=
  if ¬ s.validPolicy id then .error .NotFoundError
  else if caller ≠ s.payoutEngine then .error .AuthorizationError
  else
    let p := s.policies id
    if p.status ≠ .Active then .error .StateError
    else .ok { s with policies := mapSet s.policies id { p with status := .PayoutTriggered } }

/-- System-level wrapper of `markPolicyAsPayout`: the source function makes no
external call and touches no vault storage, so the vault component passes
through unchanged. -/
def markPolicyAsPayoutSys (σ : SystemState) (caller : Address) (id : Nat) :
    Except Err SystemState :=
  (σ.pm.markPolicyAsPayout caller id).map fun pm' => { σ with pm := pm' }

/-- `pausePolicy`: `onlyOwner` then `validPolicy`; sets `Paused`
unconditionally (no precondition on the current status in the source). -/
def PolicyManager.pausePolicy (s : PolicyManager) (caller : Address) (id : Nat) :
    Except Err PolicyManager :=
  if caller ≠ s.owner then .error .AuthorizationError
  else if ¬ s.validPolicy id then .error .NotFoundError
  else .ok { s with policies := mapSet s.policies id { s.policies id with status := .Paused } }

/-- `resumePolicy`: `onlyOwner` then `validPolicy`; sets `Active`
unconditionally. -/
def PolicyManager.resumePolicy (s : PolicyManager) (caller : Address) (id : Nat) :
    Except Err PolicyManager :=
  if caller ≠ s.owner then .error .AuthorizationError
  else if ¬ s.validPolicy id then .error .NotFoundError
  else .ok { s with policies := mapSet s.policies id { s.policies id with status := .Active } }

/-- `resetPolicyForNewSeason`: `onlyOwner` then `validPolicy`; requires the
status to be `PayoutTriggered` or `Paused`; deletes the subscriber array,
increments the season, sets `Active`. The per-policy `lastSubscribedSeason`
mapping is untouched (Solidity `delete` does not clear struct mappings). -/
def PolicyManager.resetPolicyForNewSeason (s : PolicyManager) (caller : Address) (id : Nat) :
    Except Err PolicyManager :=
  if caller ≠ s.owner then .error .AuthorizationError
  else if ¬ s.validPolicy id then .error .NotFoundError
  else
    let p := s.policies id
    if p.status = .PayoutTriggered ∨ p.status = .Paused then
      let p' := { p with
                  currentSubscribers := ([] : List Address)
                  season := p.season + 1
                  status := PolicyStatus.Active }
      .ok { s with policies := mapSet s.policies id p' }
    else .error .StateError

/-! ### Derived forms and test fixtures -/

/-- The post-state of a successful `subscribe`, written out explicitly:
exclusivity flag (only for full-season policies), per-policy season record,
subscriber append, farmer history append, and the vault increments performed
by the forwarded deposit. `subscribe_ok_iff` proves this is exactly what the
source computes. -/
def subscribeSucc (σ : SystemState) (farmer : Address) (policyId value : Nat) :
    SystemState :=
  let p := σ.pm.policies policyId
  let cover' :=
    if p.coversFullSeason then mapSet2 σ.pm.farmerSeasonFullCover farmer p.season true
    else σ.pm.farmerSeasonFullCover
  let p' := { p with
              lastSubscribedSeason := mapSet p.lastSubscribedSeason farmer p.season
              currentSubscribers := p.currentSubscribers ++ [farmer] }
  { pmAddr := σ.pmAddr
    pm := { σ.pm with
            policies := mapSet σ.pm.policies policyId p'
            farmerPolicies := mapSet σ.pm.farmerPolicies farmer (σ.pm.farmerPolicies farmer ++ [policyId])
            farmerSeasonFullCover := cover' }
    vault := { σ.vault with
               farmerBalances := mapSet σ.vault.farmerBalances farmer (σ.vault.farmerBalances farmer + value)
               totalCollected := σ.vault.totalCollected + value
               balance := σ.vault.balance + value } }

/-- A vault whose only authorized manager is address 3 (the PolicyManager). -/
def vault0 : Treasury :=
  { owner := 9
    authorizedManagers := mapSet (fun _ => false) 3 true
    farmerBalances := fun _ => 0
    totalCollected := 0
    balance := 0 }

/-- A full-season policy with id 1, premium 100, season 2025, deadline 200. -/
def policy1 : Policy :=
  { Policy.zero with
    id := 1
    name := "Flowering"
    triggerThreshold := 50
    premium := 100
    season := 2025
    seasonStart := 10
    seasonEnd := 500
    subscriptionDeadline := 200
    coversFullSeason := true
    status := .Active }

/-- A manager state owning exactly `policy1`; owner 1, payout engine 2. -/
def pm0 : PolicyManager :=
  { owner := 1
    treasury := 7
    payoutEngine := 2
    nextPolicyId := 2
    policies := mapSet (fun _ => Policy.zero) 1 policy1
    farmerPolicies := fun _ => []
    farmerSeasonFullCover := fun _ _ => false }

/-- Combined fixture: PolicyManager at address 3 next to `vault0`. -/
def sys0 : SystemState := { pmAddr := 3, pm := pm0, vault := vault0 }

/-- Elimination for a successful deposit: the caller was authorized, the value
strictly positive, and the post-state is the three increments. -/
theorem Treasury.deposit_ok_elim (t t' : Treasury) (caller farmer : Address) (value : Nat)
    (h : t.deposit caller farmer value = .ok t') :
    t.authorizedManagers caller = true ∧ 0 < value ∧
    t' = { t with
           farmerBalances := mapSet t.farmerBalances farmer (t.farmerBalances farmer + value)
           totalCollected := t.totalCollected + value
           balance := t.balance + value } := by
  by_cases h1 : t.authorizedManagers caller = true
  · by_cases h2 : value = 0
    · exact absurd h (by simp [Treasury.deposit, h1, h2])
    · have hred : t.deposit caller farmer value =
          .ok { t with
                farmerBalances := mapSet t.farmerBalances farmer (t.farmerBalances farmer + value)
                totalCollected := t.totalCollected + value
                balance := t.balance + value } := by
        simp [Treasury.deposit, h1, h2]
      rw [hred] at h
      injection h with h'
      subst h'
      exact ⟨h1, Nat.pos_of_ne_zero h2, rfl⟩
  · exact absurd h (by simp [Treasury.deposit, h1])

/-- A failed deposit means the caller was unauthorized or the value zero. -/
theorem Treasury.deposit_error_elim (t : Treasury) (caller farmer : Address) (value : Nat)
    (e : Err) (h : t.deposit caller farmer value = .error e) :
    t.authorizedManagers caller = false ∨ value = 0 := by
  by_cases h1 : t.authorizedManagers caller = true
  · by_cases h2 : value = 0
    · exact Or.inr h2
    · exact absurd h (by simp [Treasury.deposit, h1, h2])
  · exact Or.inl (by simpa using h1)

/-- A successful subscription implies the six admission checks and the
deposit's own checks all passed, and the post-state is `subscribeSucc`. -/
theorem subscribe_ok_elim (σ : SystemState) (farmer : Address) (id value now : Nat)
    (σ' : SystemState) (h : subscribe σ farmer id value now = .ok σ') :
    σ.pm.validPolicy id ∧
    (σ.pm.policies id).status = .Active ∧
    now ≤ (σ.pm.policies id).subscriptionDeadline ∧
    value = (σ.pm.policies id).premium ∧
    (σ.pm.policies id).lastSubscribedSeason farmer < (σ.pm.policies id).season ∧
    σ.pm.farmerSeasonFullCover farmer (σ.pm.policies id).season = false ∧
    σ.vault.authorizedManagers σ.pmAddr = true ∧
    0 < value ∧
    σ' = subscribeSucc σ farmer id value := by
  simp only [subscribe] at h
  rcases hd : σ.vault.deposit σ.pmAddr farmer value with e | t'
  · rw [hd] at h
    split_ifs at h
  · rw [hd] at h
    obtain ⟨ha, hv, ht⟩ := Treasury.deposit_ok_elim _ _ _ _ _ hd
    split_ifs at h with h1 h2 h3 h4 h5 h6 h7
    all_goals
      subst ht
      dsimp only at h
      injection h with h'
      refine ⟨h1, not_not.mp h2, h3, not_not.mp h4, h5, by simpa using h6, ha, hv, ?_⟩
      rw [← h']
      unfold subscribeSucc
      simp only [h7, if_true, if_false, Bool.not_eq_true]
      try rfl

/-- Introduction for successful subscription: when the six admission checks
pass and the vault authorizes the manager on a positive value, `subscribe`
returns exactly `subscribeSucc`. -/
theorem subscribe_ok_intro (σ : SystemState) (farmer : Address) (id value now : Nat)
    (h1 : σ.pm.validPolicy id)
    (h2 : (σ.pm.policies id).status = .Active)
    (h3 : now ≤ (σ.pm.policies id).subscriptionDeadline)
    (h4 : value = (σ.pm.policies id).premium)
    (h5 : (σ.pm.policies id).lastSubscribedSeason farmer < (σ.pm.policies id).season)
    (h6 : σ.pm.farmerSeasonFullCover farmer (σ.pm.policies id).season = false)
    (h7 : σ.vault.authorizedManagers σ.pmAddr = true)
    (h8 : 0 < value) :
    subscribe σ farmer id value now = .ok (subscribeSucc σ farmer id value) := by
  simp only [subscribe, Treasury.deposit, subscribeSucc]
  rw [if_neg (not_not_intro h1), if_neg (not_not_intro h2), if_neg (not_not_intro h3),
    if_neg (not_not_intro h4), if_neg (not_not_intro h5), if_neg (by simp [h6]),
    if_neg (not_not_intro (by simpa using h7)), if_neg (Nat.pos_iff_ne_zero.mp h8)]

/-! ### Claim theorems -/

/-- C1: subscribe performs its admission checks in the source order —
policy exists (NotFoundError), status Active (StateError), timestamp within
the deadline (DeadlineError), payment exactly the premium (PaymentError),
per-policy season guard (DuplicateSubscriptionError), full-season exclusivity
flag (DuplicateSubscriptionError) — the error reported is that of the first
failing check, and a failing call leaves the pre-call state (revert
semantics, `applyTx`). -/
theorem C1_subscribe_check_order (σ : SystemState) (farmer : Address) (id value now : Nat) :
    (¬ σ.pm.validPolicy id → subscribe σ farmer id value now = .error .NotFoundError) ∧
    (σ.pm.validPolicy id → (σ.pm.policies id).status ≠ .Active →
      subscribe σ farmer id value now = .error .StateError) ∧
    (σ.pm.validPolicy id → (σ.pm.policies id).status = .Active →
      ¬ now ≤ (σ.pm.policies id).subscriptionDeadline →
      subscribe σ farmer id value now = .error .DeadlineError) ∧
    (σ.pm.validPolicy id → (σ.pm.policies id).status = .Active →
      now ≤ (σ.pm.policies id).subscriptionDeadline →
      value ≠ (σ.pm.policies id).premium →
      subscribe σ farmer id value now = .error .PaymentError) ∧
    (σ.pm.validPolicy id → (σ.pm.policies id).status = .Active →
      now ≤ (σ.pm.policies id).subscriptionDeadline →
      value = (σ.pm.policies id).premium →
      ¬ (σ.pm.policies id).lastSubscribedSeason farmer < (σ.pm.policies id).season →
      subscribe σ farmer id value now = .error .DuplicateSubscriptionError) ∧
    (σ.pm.validPolicy id → (σ.pm.policies id).status = .Active →
      now ≤ (σ.pm.policies id).subscriptionDeadline →
      value = (σ.pm.policies id).premium →
      (σ.pm.policies id).lastSubscribedSeason farmer < (σ.pm.policies id).season →
      σ.pm.farmerSeasonFullCover farmer (σ.pm.policies id).season = true →
      subscribe σ farmer id value now = .error .DuplicateSubscriptionError) ∧
    (∀ e, subscribe σ farmer id value now = .error e →
      applyTx σ (subscribe σ farmer id value now) = σ) := by
  refine ⟨?_, ?_, ?_, ?_, ?_, ?_, ?_⟩
  · intro h1
    simp [subscribe, h1]
  · intro h1 h2
    simp [subscribe, h1, h2]
  · intro h1 h2 h3
    simp [subscribe, h1, h2, h3]
  · intro h1 h2 h3 h4
    simp [subscribe, h1, h2, h3, h4]
  · intro h1 h2 h3 h4 h5
    simp [subscribe, h1, h2, h3, h4, h5]
  · intro h1 h2 h3 h4 h5 h6
    simp [subscribe, h1, h2, h3, h4, h5, h6]
  · intro e he
    rw [he]
    rfl

/-- C1 witness at the fixture: a wrong premium (7 instead of 100) is reported
as PaymentError. -/
theorem C1_subscribe_check_order_witness :
    subscribe sys0 5 1 7 150 = .error .PaymentError :=
  (C1_subscribe_check_order sys0 5 1 7 150).2.2.2.1 (by decide) (by decide)
    (by decide) (by decide)

/-- C2: subscribe is all-or-nothing: an error leaves every piece of state as
before (revert semantics); when the vault does not authorize the manager the
whole subscription fails (the deposit failure propagates — there is no
success state); and on success the payment has been forwarded within the same
operation: the farmer balance, the total collected and the held funds each
grow by exactly the payment. -/
theorem C2_subscribe_atomic (σ : SystemState) (farmer : Address) (id value now : Nat) :
    (∀ e, subscribe σ farmer id value now = .error e →
       applyTx σ (subscribe σ farmer id value now) = σ) ∧
    (σ.vault.authorizedManagers σ.pmAddr = false →
       ∀ σ', subscribe σ farmer id value now ≠ .ok σ') ∧
    (∀ σ', subscribe σ farmer id value now = .ok σ' →
       σ'.vault.farmerBalances farmer = σ.vault.farmerBalances farmer + value ∧
       σ'.vault.totalCollected = σ.vault.totalCollected + value ∧
       σ'.vault.balance = σ.vault.balance + value) := by
  refine ⟨?_, ?_, ?_⟩
  · intro e he
    rw [he]
    rfl
  · intro hA σ' h
    obtain ⟨-, -, -, -, -, -, ha, -, -⟩ := subscribe_ok_elim _ _ _ _ _ _ h
    rw [hA] at ha
    exact Bool.false_ne_true ha
  · intro σ' h
    obtain ⟨-, -, -, -, -, -, -, -, hs⟩ := subscribe_ok_elim _ _ _ _ _ _ h
    subst hs
    unfold subscribeSucc
    exact ⟨by simp [mapSet], rfl, rfl⟩

/-- C2 witness at the fixture: a successful subscription forwards the 100-wei
premium into the vault's totalCollected counter. -/
theorem C2_subscribe_atomic_witness :
    (subscribeSucc sys0 5 1 100).vault.totalCollected = sys0.vault.totalCollected + 100 :=
  ((C2_subscribe_atomic sys0 5 1 100 150).2.2 (subscribeSucc sys0 5 1 100)
    (subscribe_ok_intro sys0 5 1 100 150 (by decide) (by decide) (by decide) (by decide)
      (by decide) (by decide) (by decide) (by decide))).2.1

/-- C3: full-season exclusivity: a successful subscription to a
coversFullSeason policy raises the farmer's season flag; once the flag is
raised for season s, no subscribe by that farmer to any policy of season s
can succeed, and when the earlier admission checks pass the reported error is
DuplicateSubscriptionError; resetPolicyForNewSeason never changes the flag
table. -/
theorem C3_full_season_exclusivity (σ σ' : SystemState) (farmer : Address)
    (id value now s : Nat) :
    (subscribe σ farmer id value now = .ok σ' →
       (σ.pm.policies id).coversFullSeason = true →
       σ'.pm.farmerSeasonFullCover farmer ((σ.pm.policies id).season) = true) ∧
    (σ.pm.farmerSeasonFullCover farmer s = true → (σ.pm.policies id).season = s →
       ∀ σ'', subscribe σ farmer id value now ≠ .ok σ'') ∧
    (σ.pm.farmerSeasonFullCover farmer s = true → (σ.pm.policies id).season = s →
       σ.pm.validPolicy id → (σ.pm.policies id).status = .Active →
       now ≤ (σ.pm.policies id).subscriptionDeadline →
       value = (σ.pm.policies id).premium →
       (σ.pm.policies id).lastSubscribedSeason farmer < (σ.pm.policies id).season →
       subscribe σ farmer id value now = .error .DuplicateSubscriptionError) ∧
    (subscribe σ farmer id value now = .ok σ' →
       ∀ g r, σ.pm.farmerSeasonFullCover g r = true →
         σ'.pm.farmerSeasonFullCover g r = true) ∧
    (∀ (s1 s2 : PolicyManager) (caller : Address) (pid : Nat),
       s1.resetPolicyForNewSeason caller pid = .ok s2 →
       s2.farmerSeasonFullCover = s1.farmerSeasonFullCover) := by
  refine ⟨?_, ?_, ?_, ?_, ?_⟩
  · intro h hc
    obtain ⟨-, -, -, -, -, -, -, -, hs⟩ := subscribe_ok_elim _ _ _ _ _ _ h
    subst hs
    simp [subscribeSucc, hc, mapSet2]
  · intro hflag hseason σ'' h
    obtain ⟨-, -, -, -, -, hcov, -, -, -⟩ := subscribe_ok_elim _ _ _ _ _ _ h
    rw [hseason, hflag] at hcov
    exact Bool.noConfusion hcov
  · intro hflag hseason h1 h2 h3 h4 h5
    simp [subscribe, h1, h2, h3, h4, h5, hseason, hflag]
  · intro h g r hgr
    obtain ⟨-, -, -, -, -, -, -, -, hs⟩ := subscribe_ok_elim _ _ _ _ _ _ h
    subst hs
    simp only [subscribeSucc]
    split_ifs with hc
    · simp only [mapSet2]
      split_ifs with hgf
      · rfl
      · exact hgr
    · exact hgr
  · intro s1 s2 caller pid h
    simp only [PolicyManager.resetPolicyForNewSeason] at h
    split_ifs at h with hw hv hs
    injection h with h'
    rw [← h']

/-- C3 witness at the fixture: subscribing farmer 5 to the full-season policy
1 raises the season-2025 exclusivity flag. -/
theorem C3_full_season_exclusivity_witness :
    (subscribeSucc sys0 5 1 100).pm.farmerSeasonFullCover 5 ((sys0.pm.policies 1).season) = true :=
  (C3_full_season_exclusivity sys0 (subscribeSucc sys0 5 1 100) 5 1 100 150 2025).1
    (subscribe_ok_intro sys0 5 1 100 150 (by decide) (by decide) (by decide) (by decide)
      (by decide) (by decide) (by decide) (by decide)) (by decide)

/-- `pm0` with policy 1 driven to PayoutTriggered. -/
def pmPT : PolicyManager :=
  { pm0 with policies := mapSet pm0.policies 1 { policy1 with status := .PayoutTriggered } }

/-- C4 counterexample: `pausePolicy` carries no precondition on the current
status, so from PayoutTriggered the owner drives policy 1 to Paused — the
transition PayoutTriggered→Paused, which is outside the claimed transition
set. -/
theorem C4_status_transitions_cex :
    (pmPT.policies 1).status = .PayoutTriggered ∧
    pmPT.pausePolicy 1 1 = .ok (applyTx pmPT (pmPT.pausePolicy 1 1)) ∧
    ((applyTx pmPT (pmPT.pausePolicy 1 1)).policies 1).status = .Paused :=
  ⟨rfl, rfl, rfl⟩

/-- Slots at or beyond `nextPolicyId` still hold the Solidity zero value. -/
def Fresh (s : PolicyManager) : Prop :=
  ∀ i, s.nextPolicyId ≤ i → s.policies i = Policy.zero

/-- C4 amended: a policy's status changes only via: pause, which sets Paused
from ANY status; resume, which sets Active from ANY status; payout marking,
Active→PayoutTriggered; and season reset, {Paused,PayoutTriggered}→Active
(with season+1 and cleared subscribers); subscribe never changes a status,
createPolicy only writes Active into a fresh slot that already reads Active,
and setPayoutEngine touches no policy. -/
theorem C4_status_transitions (s s' : PolicyManager) (σ σ' : SystemState)
    (caller farmer : Address) (id value now thr prem seas sst sen sdl : Nat)
    (nm : String) (cfs : Bool) :
    (subscribe σ farmer id value now = .ok σ' →
       ∀ i, (σ'.pm.policies i).status = (σ.pm.policies i).status) ∧
    (Fresh s → s.createPolicy caller nm thr prem seas sst sen sdl cfs = .ok s' →
       ∀ i, (s'.policies i).status = (s.policies i).status) ∧
    (s.pausePolicy caller id = .ok s' →
       (s'.policies id).status = .Paused ∧
       ∀ i, i ≠ id → (s'.policies i).status = (s.policies i).status) ∧
    (s.resumePolicy caller id = .ok s' →
       (s'.policies id).status = .Active ∧
       ∀ i, i ≠ id → (s'.policies i).status = (s.policies i).status) ∧
    (s.markPolicyAsPayout caller id = .ok s' →
       (s.policies id).status = .Active ∧ (s'.policies id).status = .PayoutTriggered ∧
       ∀ i, i ≠ id → (s'.policies i).status = (s.policies i).status) ∧
    (s.resetPolicyForNewSeason caller id = .ok s' →
       ((s.policies id).status = .Paused ∨ (s.policies id).status = .PayoutTriggered) ∧
       (s'.policies id).status = .Active ∧
       (s'.policies id).season = (s.policies id).season + 1 ∧
       (s'.policies id).currentSubscribers = [] ∧
       ∀ i, i ≠ id → (s'.policies i).status = (s.policies i).status) ∧
    (s.setPayoutEngine caller farmer = .ok s' → ∀ i, s'.policies i = s.policies i) := by
  refine ⟨?_, ?_, ?_, ?_, ?_, ?_, ?_⟩
  · intro h i
    obtain ⟨-, -, -, -, -, -, -, -, hs⟩ := subscribe_ok_elim _ _ _ _ _ _ h
    subst hs
    rcases eq_or_ne i id with rfl | hi
    · simp [subscribeSucc, mapSet]
    · simp [subscribeSucc, mapSet, hi]
  · intro hF h i
    simp only [PolicyManager.createPolicy] at h
    split_ifs at h with h1
    injection h with h'
    subst h'
    rcases eq_or_ne i s.nextPolicyId with rfl | hi
    · simp [mapSet, hF s.nextPolicyId le_rfl, Policy.zero]
    · simp [mapSet, hi]
  · intro h
    simp only [PolicyManager.pausePolicy] at h
    split_ifs at h with h1 h2
    injection h with h'
    subst h'
    exact ⟨by simp [mapSet], fun i hi => by simp [mapSet, hi]⟩
  · intro h
    simp only [PolicyManager.resumePolicy] at h
    split_ifs at h with h1 h2
    injection h with h'
    subst h'
    exact ⟨by simp [mapSet], fun i hi => by simp [mapSet, hi]⟩
  · intro h
    simp only [PolicyManager.markPolicyAsPayout] at h
    split_ifs at h with h1 h2 h3
    injection h with h'
    subst h'
    exact ⟨not_not.mp h3, by simp [mapSet], fun i hi => by simp [mapSet, hi]⟩
  · intro h
    simp only [PolicyManager.resetPolicyForNewSeason] at h
    split_ifs at h with h1 h2 h3
    injection h with h'
    subst h'
    exact ⟨h3.elim Or.inr Or.inl, by simp [mapSet], by simp [mapSet],
      by simp [mapSet], fun i hi => by simp [mapSet, hi]⟩
  · intro h
    simp only [PolicyManager.setPayoutEngine] at h
    split_ifs at h with h1
    injection h with h'
    subst h'
    intro i
    rfl

/-- C4 amended witness: pausing the Active fixture policy yields Paused. -/
theorem C4_status_transitions_witness :
    ((applyTx pm0 (pm0.pausePolicy 1 1)).policies 1).status = .Paused :=
  ((C4_status_transitions pm0 (applyTx pm0 (pm0.pausePolicy 1 1)) sys0 sys0 1 5 1 100
      150 0 0 0 0 0 0 "x" false).2.2.1 rfl).1

/-- The post-state of a successful season reset: subscribers cleared,
season incremented, status Active, everything else untouched. -/
def resetSucc (s : PolicyManager) (id : Nat) : PolicyManager :=
  let p := s.policies id
  let p' := { p with
              currentSubscribers := ([] : List Address)
              season := p.season + 1
              status := PolicyStatus.Active }
  { s with policies := mapSet s.policies id p' }

/-- C5: resetPolicyForNewSeason is owner-only, demands status Paused or
PayoutTriggered (StateError otherwise), and on success empties the subscriber
list, increments the season by exactly 1, sets Active, and changes nothing
else — not the other policy fields (name, premium, threshold, timestamps,
coversFullSeason, the per-policy lastSubscribedSeason mapping), not other
policies, and no other storage. -/
theorem C5_reset_season (s : PolicyManager) (caller : Address) (id : Nat) :
    (caller ≠ s.owner → s.resetPolicyForNewSeason caller id = .error .AuthorizationError) ∧
    (caller = s.owner → s.validPolicy id →
       (s.policies id).status ≠ .Paused → (s.policies id).status ≠ .PayoutTriggered →
       s.resetPolicyForNewSeason caller id = .error .StateError) ∧
    (caller = s.owner → s.validPolicy id →
       (s.policies id).status = .Paused ∨ (s.policies id).status = .PayoutTriggered →
       s.resetPolicyForNewSeason caller id = .ok (resetSucc s id)) ∧
    (∀ s', s.resetPolicyForNewSeason caller id = .ok s' →
       (s'.policies id).currentSubscribers = [] ∧
       (s'.policies id).season = (s.policies id).season + 1 ∧
       (s'.policies id).status = .Active ∧
       (s'.policies id).name = (s.policies id).name ∧
       (s'.policies id).premium = (s.policies id).premium ∧
       (s'.policies id).triggerThreshold = (s.policies id).triggerThreshold ∧
       (s'.policies id).seasonStart = (s.policies id).seasonStart ∧
       (s'.policies id).seasonEnd = (s.policies id).seasonEnd ∧
       (s'.policies id).subscriptionDeadline = (s.policies id).subscriptionDeadline ∧
       (s'.policies id).coversFullSeason = (s.policies id).coversFullSeason ∧
       (s'.policies id).lastSubscribedSeason = (s.policies id).lastSubscribedSeason ∧
       (∀ j, j ≠ id → s'.policies j = s.policies j) ∧
       s'.owner = s.owner ∧ s'.nextPolicyId = s.nextPolicyId ∧
       s'.farmerPolicies = s.farmerPolicies ∧
       s'.farmerSeasonFullCover = s.farmerSeasonFullCover) := by
  refine ⟨?_, ?_, ?_, ?_⟩
  · intro hc
    simp [PolicyManager.resetPolicyForNewSeason, hc]
  · intro hc hv h1 h2
    simp [PolicyManager.resetPolicyForNewSeason, hc, hv, h1, h2]
  · intro hc hv hst
    rcases hst with h | h <;>
      simp [PolicyManager.resetPolicyForNewSeason, resetSucc, hc, hv, h]
  · intro s' h
    simp only [PolicyManager.resetPolicyForNewSeason] at h
    split_ifs at h with h1 h2 h3
    injection h with h'
    subst h'
    refine ⟨by simp [mapSet], by simp [mapSet], by simp [mapSet], by simp [mapSet],
      by simp [mapSet], by simp [mapSet], by simp [mapSet], by simp [mapSet],
      by simp [mapSet], by simp [mapSet], by simp [mapSet], ?_, rfl, rfl, rfl, rfl⟩
    intro j hj
    simp [mapSet, hj]

/-- C5 witness: resetting the PayoutTriggered fixture policy clears its
subscribers, bumps the season and reactivates it. -/
theorem C5_reset_season_witness :
    pmPT.resetPolicyForNewSeason 1 1 = .ok (resetSucc pmPT 1) :=
  (C5_reset_season pmPT 1 1).2.2.1 (by decide) (by decide) (Or.inr (by decide))

/-- The post-state of a successful payout marking: only the status of the
marked policy changes, to PayoutTriggered. -/
def markSucc (s : PolicyManager) (id : Nat) : PolicyManager :=
  let p' := { s.policies id with status := PolicyStatus.PayoutTriggered }
  { s with policies := mapSet s.policies id p' }

/-- C6: markPolicyAsPayout succeeds exactly when the caller is the payout
engine and the (existing) policy is Active; then the status becomes
PayoutTriggered and no funds move (the vault component is untouched); a
second call fails with StateError and any other caller gets
AuthorizationError. -/
theorem C6_mark_payout (s : PolicyManager) (caller : Address) (id : Nat)
    (σ : SystemState) :
    (s.validPolicy id → caller ≠ s.payoutEngine →
       s.markPolicyAsPayout caller id = .error .AuthorizationError) ∧
    (s.validPolicy id → caller = s.payoutEngine → (s.policies id).status ≠ .Active →
       s.markPolicyAsPayout caller id = .error .StateError) ∧
    (s.validPolicy id → caller = s.payoutEngine → (s.policies id).status = .Active →
       s.markPolicyAsPayout caller id = .ok (markSucc s id)) ∧
    (∀ s', s.markPolicyAsPayout caller id = .ok s' →
       s.validPolicy id ∧ caller = s.payoutEngine ∧ (s.policies id).status = .Active ∧
       (s'.policies id).status = .PayoutTriggered ∧
       s'.markPolicyAsPayout caller id = .error .StateError) ∧
    (∀ σ', markPolicyAsPayoutSys σ caller id = .ok σ' → σ'.vault = σ.vault) := by
  refine ⟨?_, ?_, ?_, ?_, ?_⟩
  · intro hv hc
    simp [PolicyManager.markPolicyAsPayout, hv, hc]
  · intro hv hc hs
    simp [PolicyManager.markPolicyAsPayout, hv, hc, hs]
  · intro hv hc hs
    simp [PolicyManager.markPolicyAsPayout, markSucc, hv, hc, hs]
  · intro s' h
    simp only [PolicyManager.markPolicyAsPayout] at h
    split_ifs at h with h1 h2 h3
    injection h with h'
    subst h'
    have hpos := h1.1
    have hlt := h1.2
    refine ⟨h1, not_not.mp h2, not_not.mp h3, by simp [mapSet], ?_⟩
    simp [PolicyManager.markPolicyAsPayout, PolicyManager.validPolicy, mapSet,
      hpos, hlt, not_not.mp h2]
  · intro σ' h
    rcases hm : σ.pm.markPolicyAsPayout caller id with e | pm'
    · simp [markPolicyAsPayoutSys, Except.map, hm] at h
    · simp only [markPolicyAsPayoutSys, hm, Except.map] at h
      injection h with h'
      subst h'
      rfl

/-- C6 witness: the payout engine (address 2) marks the Active fixture
policy, producing exactly the PayoutTriggered post-state. -/
theorem C6_mark_payout_witness :
    pm0.markPolicyAsPayout 2 1 = .ok (markSucc pm0 1) :=
  (C6_mark_payout pm0 2 1 sys0).2.2.1 (by decide) (by decide) (by decide)

/-- C7: the vault's deposit succeeds exactly for an authorized manager with a
strictly positive payment: a non-manager gets AuthorizationError with no
state change, a zero payment gets PaymentError, and on success
farmerBalances[farmer] and totalCollected each grow by exactly the payment. -/
theorem C7_deposit_spec (t : Treasury) (caller farmer : Address) (value : Nat) :
    (t.authorizedManagers caller = false →
       t.deposit caller farmer value = .error .AuthorizationError ∧
       applyTx t (t.deposit caller farmer value) = t) ∧
    (t.authorizedManagers caller = true → value = 0 →
       t.deposit caller farmer value = .error .PaymentError) ∧
    (t.authorizedManagers caller = true → 0 < value →
       (applyTx t (t.deposit caller farmer value)).farmerBalances farmer
         = t.farmerBalances farmer + value ∧
       (applyTx t (t.deposit caller farmer value)).totalCollected
         = t.totalCollected + value ∧
       (applyTx t (t.deposit caller farmer value)).balance = t.balance + value ∧
       (∀ g, g ≠ farmer →
         (applyTx t (t.deposit caller farmer value)).farmerBalances g
           = t.farmerBalances g)) ∧
    (∀ t', t.deposit caller farmer value = .ok t' →
       t.authorizedManagers caller = true ∧ 0 < value) := by
  refine ⟨?_, ?_, ?_, ?_⟩
  · intro hA
    have he : t.deposit caller farmer value = .error .AuthorizationError := by
      simp [Treasury.deposit, hA]
    exact ⟨he, by rw [he]; rfl⟩
  · intro hA hz
    simp [Treasury.deposit, hA, hz]
  · intro hA hv
    have hok : t.deposit caller farmer value =
        .ok { t with
              farmerBalances := mapSet t.farmerBalances farmer (t.farmerBalances farmer + value)
              totalCollected := t.totalCollected + value
              balance := t.balance + value } := by
      simp [Treasury.deposit, hA, Nat.pos_iff_ne_zero.mp hv]
    rw [hok]
    refine ⟨by simp [applyTx, mapSet], rfl, rfl, ?_⟩
    intro g hg
    simp [applyTx, mapSet, hg]
  · intro t' h
    obtain ⟨ha, hv, -⟩ := Treasury.deposit_ok_elim _ _ _ _ _ h
    exact ⟨ha, hv⟩

/-- C7 witness: the authorized manager (address 3) deposits 100 for farmer 5
into the empty fixture vault; the farmer balance reads 100 afterwards. -/
theorem C7_deposit_spec_witness :
    (applyTx vault0 (vault0.deposit 3 5 100)).farmerBalances 5
      = vault0.farmerBalances 5 + 100 :=
  ((C7_deposit_spec vault0 3 5 100).2.2.1 (by decide) (by decide)).1

/-- A vault owned by address 1 with no managers and zero balance. -/
def tZ : Treasury :=
  { owner := 1
    authorizedManagers := fun _ => false
    farmerBalances := fun _ => 0
    totalCollected := 0
    balance := 0 }

/-- `tZ` holding 50 wei. -/
def tB : Treasury := { tZ with balance := 50 }

/-- C8 counterexample: the owner calls withdraw with recipient 0 and an
amount (5) exceeding the held funds (0); the source checks the zero address
first, so the call fails with the zero-address error, not with
InsufficientFundsError as the claim requires. -/
theorem C8_withdraw_cex :
    tZ.balance < 5 ∧ 1 = tZ.owner ∧
    tZ.withdraw 1 0 5 true = .error .ZeroAddressError ∧
    tZ.withdraw 1 0 5 true ≠ .error .InsufficientFundsError := by
  refine ⟨by decide, by decide, rfl, ?_⟩
  intro hcon
  rw [show tZ.withdraw 1 0 5 true = .error .ZeroAddressError from rfl] at hcon
  injection hcon with h
  exact Err.noConfusion h

/-- C8 amended: for the owner and a NONZERO recipient, withdraw fails with
InsufficientFundsError (funds unchanged) whenever the amount exceeds the held
funds; when it does not and the external release succeeds, the held funds
decrease by exactly the amount (a failing release aborts with TransferError);
withdrawAll with a nonzero recipient and positive balance behaves as withdraw
of the full balance, and fails with InsufficientFundsError on a zero balance;
a non-owner caller always gets AuthorizationError. -/
theorem C8_withdraw_spec (t : Treasury) (caller dst : Address) (amount : Nat)
    (sendOk : Bool) :
    (caller ≠ t.owner →
       t.withdraw caller dst amount sendOk = .error .AuthorizationError ∧
       t.withdrawAll caller dst sendOk = .error .AuthorizationError) ∧
    (caller = t.owner → dst ≠ 0 → t.balance < amount →
       t.withdraw caller dst amount sendOk = .error .InsufficientFundsError ∧
       applyTx t (t.withdraw caller dst amount sendOk) = t) ∧
    (caller = t.owner → dst ≠ 0 → amount ≤ t.balance → sendOk = true →
       t.withdraw caller dst amount sendOk = .ok { t with balance := t.balance - amount }) ∧
    (caller = t.owner → dst ≠ 0 → amount ≤ t.balance → sendOk = false →
       t.withdraw caller dst amount sendOk = .error .TransferError ∧
       applyTx t (t.withdraw caller dst amount sendOk) = t) ∧
    (caller = t.owner → t.balance = 0 →
       t.withdrawAll caller dst sendOk = .error .InsufficientFundsError) ∧
    (caller = t.owner → dst ≠ 0 → 0 < t.balance →
       t.withdrawAll caller dst sendOk = t.withdraw caller dst t.balance sendOk) := by
  refine ⟨?_, ?_, ?_, ?_, ?_, ?_⟩
  · intro hc
    exact ⟨by simp [Treasury.withdraw, hc], by simp [Treasury.withdrawAll, hc]⟩
  · intro hc hd hb
    have he : t.withdraw caller dst amount sendOk = .error .InsufficientFundsError := by
      simp [Treasury.withdraw, hc, hd, hb, Nat.not_le_of_lt hb]
    exact ⟨he, by rw [he]; rfl⟩
  · intro hc hd hb hs
    simp [Treasury.withdraw, hc, hd, hb, hs]
  · intro hc hd hb hs
    have he : t.withdraw caller dst amount sendOk = .error .TransferError := by
      simp [Treasury.withdraw, hc, hd, hb, hs]
    exact ⟨he, by rw [he]; rfl⟩
  · intro hc hb
    simp [Treasury.withdrawAll, hc, hb]
  · intro hc hd hb
    rcases sendOk with _ | _ <;>
      simp [Treasury.withdrawAll, Treasury.withdraw, hc, hd,
        Nat.pos_iff_ne_zero.mp hb]

/-- C8 amended witness: the owner withdraws 20 of the 50 held wei to
recipient 4; the held funds drop to 30. -/
theorem C8_withdraw_spec_witness :
    tB.withdraw 1 4 20 true = .ok { tB with balance := tB.balance - 20 } :=
  (C8_withdraw_spec tB 1 4 20 true).2.2.1 (by decide) (by decide) (by decide) rfl

/-- The constructor state is fresh: no slot was ever written. -/
theorem Fresh_init (d tAddr : Address) : Fresh (PolicyManager.init d tAddr) :=
  fun _ _ => rfl

/-- Writing a slot below `nextPolicyId` preserves freshness. -/
theorem Fresh_update {s : PolicyManager} (hF : Fresh s) {k : Nat}
    (hk : k < s.nextPolicyId) (p : Policy) :
    Fresh { s with policies := mapSet s.policies k p } := by
  intro i hi
  have hik : i ≠ k := by
    simp only at hi
    omega
  simp [mapSet, hik]
  exact hF i hi

/-- createPolicy preserves freshness: it writes the slot it consumes. -/
theorem Fresh_createPolicy {s s' : PolicyManager} (hF : Fresh s) (caller : Address)
    (nm : String) (thr prem seas sst sen sdl : Nat) (cfs : Bool)
    (h : s.createPolicy caller nm thr prem seas sst sen sdl cfs = .ok s') :
    Fresh s' := by
  simp only [PolicyManager.createPolicy] at h
  split_ifs at h with h1
  injection h with h'
  subst h'
  intro i hi
  simp only at hi
  have hik : i ≠ s.nextPolicyId := by omega
  simp [mapSet, hik]
  exact hF i (by omega)

/-- subscribe preserves freshness: it writes only a valid (already-created)
slot. -/
theorem Fresh_subscribe {σ σ' : SystemState} (hF : Fresh σ.pm) (farmer : Address)
    (id value now : Nat) (h : subscribe σ farmer id value now = .ok σ') :
    Fresh σ'.pm := by
  obtain ⟨⟨-, hlt⟩, -, -, -, -, -, -, -, hs⟩ := subscribe_ok_elim _ _ _ _ _ _ h
  subst hs
  exact Fresh_update hF hlt _

/-- pause, resume, payout marking and season reset preserve freshness: each
writes only a valid slot. -/
theorem Fresh_admin {s s' : PolicyManager} (hF : Fresh s) (caller : Address) (id : Nat)
    (h : s.pausePolicy caller id = .ok s' ∨ s.resumePolicy caller id = .ok s' ∨
         s.markPolicyAsPayout caller id = .ok s' ∨
         s.resetPolicyForNewSeason caller id = .ok s' ∨
         s.setPayoutEngine caller id = .ok s') :
    Fresh s' := by
  rcases h with h | h | h | h | h
  · simp only [PolicyManager.pausePolicy] at h
    split_ifs at h with h1 h2
    injection h with h'
    subst h'
    exact Fresh_update hF h2.2 _
  · simp only [PolicyManager.resumePolicy] at h
    split_ifs at h with h1 h2
    injection h with h'
    subst h'
    exact Fresh_update hF h2.2 _
  · simp only [PolicyManager.markPolicyAsPayout] at h
    split_ifs at h with h1 h2 h3
    injection h with h'
    subst h'
    exact Fresh_update hF h1.2 _
  · simp only [PolicyManager.resetPolicyForNewSeason] at h
    split_ifs at h with h1 h2 h3
    injection h with h'
    subst h'
    exact Fresh_update hF h2.2 _
  · simp only [PolicyManager.setPayoutEngine] at h
    split_ifs at h with h1
    injection h with h'
    subst h'
    exact hF

/-- The post-state of a successful createPolicy: the consumed slot written
with the given fields and status Active, the id counter bumped. -/
def createSucc (s : PolicyManager) (nm : String)
    (thr prem seas sst sen sdl : Nat) (cfs : Bool) : PolicyManager :=
  let p := { s.policies s.nextPolicyId with
             id := s.nextPolicyId
             name := nm
             triggerThreshold := thr
             premium := prem
             season := seas
             seasonStart := sst
             seasonEnd := sen
             subscriptionDeadline := sdl
             coversFullSeason := cfs
             status := PolicyStatus.Active }
  { s with
    policies := mapSet s.policies s.nextPolicyId p
    nextPolicyId := s.nextPolicyId + 1 }

/-- C9: createPolicy is owner-only and assigns ids densely and sequentially
from 1: the new policy sits at the old counter value with matching id field,
status Active, an empty subscriber list (in any reachable, i.e. fresh,
state) and exactly the given season; id 0 is never valid, and valid ids are
exactly 1..nextPolicyId-1 before and after the creation; the constructor
starts the counter at 1 with no valid id. -/
theorem C9_create_policy (s : PolicyManager) (caller deployer tAddr : Address)
    (nm : String) (thr prem seas sst sen sdl : Nat) (cfs : Bool) :
    (caller ≠ s.owner →
       s.createPolicy caller nm thr prem seas sst sen sdl cfs = .error .AuthorizationError) ∧
    (caller = s.owner →
       s.createPolicy caller nm thr prem seas sst sen sdl cfs =
         .ok (createSucc s nm thr prem seas sst sen sdl cfs)) ∧
    (∀ s', s.createPolicy caller nm thr prem seas sst sen sdl cfs = .ok s' →
       s'.nextPolicyId = s.nextPolicyId + 1 ∧
       (s'.policies s.nextPolicyId).id = s.nextPolicyId ∧
       (s'.policies s.nextPolicyId).status = .Active ∧
       (s'.policies s.nextPolicyId).season = seas ∧
       (s'.policies s.nextPolicyId).premium = prem ∧
       (Fresh s → (s'.policies s.nextPolicyId).currentSubscribers = []) ∧
       (∀ i, i ≠ s.nextPolicyId → s'.policies i = s.policies i) ∧
       (∀ i, s'.validPolicy i ↔ 0 < i ∧ i < s.nextPolicyId + 1)) ∧
    (∀ i, s.validPolicy i ↔ 0 < i ∧ i < s.nextPolicyId) ∧
    (¬ s.validPolicy 0) ∧
    (PolicyManager.init deployer tAddr).nextPolicyId = 1 ∧
    (∀ i, ¬ (PolicyManager.init deployer tAddr).validPolicy i) := by
  refine ⟨?_, ?_, ?_, ?_, ?_, rfl, ?_⟩
  · intro hc
    simp [PolicyManager.createPolicy, hc]
  · intro hc
    simp [PolicyManager.createPolicy, createSucc, hc]
  · intro s' h
    simp only [PolicyManager.createPolicy] at h
    split_ifs at h with h1
    injection h with h'
    subst h'
    refine ⟨rfl, by simp [mapSet], by simp [mapSet], by simp [mapSet], by simp [mapSet],
      ?_, ?_, ?_⟩
    · intro hF
      simp [mapSet]
      rw [hF s.nextPolicyId le_rfl]
      rfl
    · intro i hi
      simp [mapSet, hi]
    · intro i
      simp [PolicyManager.validPolicy]
  · intro i
    exact Iff.rfl
  · simp [PolicyManager.validPolicy]
  · intro i
    simp [PolicyManager.init, PolicyManager.validPolicy]
    omega

/-- C9 witness: the owner (address 1) creates a policy on the fixture
manager; it lands at slot 2 (= the old counter). -/
theorem C9_create_policy_witness :
    pm0.createPolicy 1 "Grain" 40 60 2026 0 0 99 false =
      .ok (createSucc pm0 "Grain" 40 60 2026 0 0 99 false) :=
  (C9_create_policy pm0 1 0 0 "Grain" 40 60 2026 0 0 99 false).2.1 (by decide)

/-- `sys0` with the premium of policy 1 set to zero. -/
def sysZ : SystemState :=
  { sys0 with pm := { pm0 with policies := mapSet pm0.policies 1 { policy1 with premium := 0 } } }

/-- C10: a policy whose premium is 0 can never gain a subscriber: the exact
payment check forces a zero attached value, which the canonical vault's
deposit rejects, so every subscribe attempt fails with no state change. -/
theorem C10_zero_premium (σ : SystemState) (farmer : Address) (id value now : Nat)
    (hprem : (σ.pm.policies id).premium = 0) :
    (∀ σ', subscribe σ farmer id value now ≠ .ok σ') ∧
    (∀ e, subscribe σ farmer id value now = .error e →
       applyTx σ (subscribe σ farmer id value now) = σ) := by
  constructor
  · intro σ' h
    obtain ⟨-, -, -, hval, -, -, -, hpos, -⟩ := subscribe_ok_elim _ _ _ _ _ _ h
    rw [hprem] at hval
    omega
  · intro e he
    rw [he]
    rfl

/-- C10 witness: on the zero-premium fixture, the exact-payment subscription
attempt (value 0, in time, Active policy) does not succeed. -/
theorem C10_zero_premium_witness :
    subscribe sysZ 5 1 0 150 ≠ .ok (subscribeSucc sysZ 5 1 0) :=
  (C10_zero_premium sysZ 5 1 0 150 (by decide)).1 (subscribeSucc sysZ 5 1 0)

end Hackat
